import Mathlib

/-! Shivkrupa Enterprises front-end script (`src/main.js`).


A shallow embedding of the index arithmetic, widget state and timer handling of
`main.js`, with the properties stated in the specification.

Conventions of the embedding:

* JavaScript numbers that hold indices are `Int`; the JavaScript `%` operator is the
  truncated remainder `Int.tmod` (sign of the dividend);
* list lengths (`IMAGES.length`, `CLIENT_LOGOS.length`, `testimonials.length`,
  `slides.length`, `cards.length`) are parameters, so that the results hold for every
  item list and not only for the arrays written in the file;
* an operation that can throw a `TypeError` returns `Option`;
* the geometry of the scroll transform is over exact rationals (`Rat`).
-/

namespace MainJs

/-! ## Lengths of the arrays written in the source -/

/-- Embeds `IMAGES.length` (main.js, lines 414-435). -/
def IMAGES_LENGTH : Int := 20

/-- Embeds `CLIENT_LOGOS.length` (main.js, lines 222-230). -/
def CLIENT_LOGOS_LENGTH : Int := 6

/-- Embeds `testimonials.length` (main.js, lines 347-353). -/
def TESTIMONIALS_LENGTH : Int := 5

/-- Embeds `const VISIBLE = 3;` of the testimonials carousel (main.js, line 355). -/
def VISIBLE : Int := 3

/-- Embeds `const visibleCount = 3;` of the feature carousel (main.js, line 566). -/
def visibleCount : Int := 3

/-! ## Projects lightbox: index arithmetic (main.js, lines 492-499) -/

/-- Embeds `showPrev`: `currentIndex = (currentIndex - 1 + IMAGES.length) % IMAGES.length`. -/
def showPrev (len currentIndex : Int) : Int :=
  (currentIndex - 1 + len).tmod len

/-- Embeds `showNext`: `currentIndex = (currentIndex + 1) % IMAGES.length`. -/
def showNext (len currentIndex : Int) : Int :=
  (currentIndex + 1).tmod len

/-! ## Clients lightbox: index arithmetic (main.js, lines 287-294) -/

/-- Embeds `showClientPrev`:
`currentIndex = (currentIndex - 1 + CLIENT_LOGOS.length) % CLIENT_LOGOS.length`. -/
def showClientPrev (len currentIndex : Int) : Int :=
  (currentIndex - 1 + len).tmod len

/-- Embeds `showClientNext`: `currentIndex = (currentIndex + 1) % CLIENT_LOGOS.length`. -/
def showClientNext (len currentIndex : Int) : Int :=
  (currentIndex + 1).tmod len

/-! ## Testimonials carousel (main.js, lines 355-396) -/

/-- Embeds `next` of the testimonials: `start = (start + 1) % testimonials.length`. -/
def testimonialsNext (len start : Int) : Int :=
  (start + 1).tmod len

/-- Embeds `prev` of the testimonials:
`start = (start - 1 + testimonials.length) % testimonials.length`. -/
def testimonialsPrev (len start : Int) : Int :=
  (start - 1 + len).tmod len

/-- The item index computed by `render` for the `i`-th visible card:
`const idx = (start + i) % testimonials.length`. -/
def testimonialsRenderIdx (len start i : Int) : Int :=
  (start + i).tmod len

/-! ## Hero slider: index arithmetic of `next` (main.js, line 90) -/

/-- The index assignment of the hero slider's `next`:
`current = (current + 1) % slides.length`. -/
def heroNextIndex (len current : Int) : Int :=
  (current + 1).tmod len

/-! ## Feature carousel (main.js, lines 578-591)

Only `index` is tracked: the transform written by `goTo` is a function of `index` and
`slideWidth` and is never read back. -/

/-- Embeds `goTo(i)` of the feature carousel, as the value left in `index`:
```
index = i;
const maxIndex = cards.length - visibleCount;
if (index < 0) index = maxIndex;
if (index > maxIndex) index = 0;
```
The two `if` statements run one after the other, as in the source. -/
def featGoTo (cardsLength i : Int) : Int :=
  let index := i
  let maxIndex := cardsLength - visibleCount
  let index := if index < 0 then maxIndex else index
  let index := if index > maxIndex then 0 else index
  index

/-- Embeds `function next() { goTo(index + 1); }`. -/
def featNext (cardsLength index : Int) : Int :=
  featGoTo cardsLength (index + 1)

/-- Embeds `function prev() { goTo(index - 1); }`. -/
def featPrev (cardsLength index : Int) : Int :=
  featGoTo cardsLength (index - 1)

/-! ## Sequences of navigation steps -/

/-- A navigation step of a widget that has both directions. -/
inductive Nav where
  | next
  | prev
  deriving DecidableEq, Repr

/-- Projects lightbox: the index after a sequence of `showNext`/`showPrev` calls. -/
def runLightbox (len : Int) : List Nav → Int → Int
  | [], c => c
  | Nav.next :: rest, c => runLightbox len rest (showNext len c)
  | Nav.prev :: rest, c => runLightbox len rest (showPrev len c)

/-- Clients lightbox: the index after a sequence of `showClientNext`/`showClientPrev`
calls. -/
def runClientLightbox (len : Int) : List Nav → Int → Int
  | [], c => c
  | Nav.next :: rest, c => runClientLightbox len rest (showClientNext len c)
  | Nav.prev :: rest, c => runClientLightbox len rest (showClientPrev len c)

/-- Testimonials carousel: `start` after a sequence of `next`/`prev` calls. -/
def runTestimonials (len : Int) : List Nav → Int → Int
  | [], c => c
  | Nav.next :: rest, c => runTestimonials len rest (testimonialsNext len c)
  | Nav.prev :: rest, c => runTestimonials len rest (testimonialsPrev len c)

/-- Hero slider: `current` after `k` calls of `next` (the slider has no `prev`). -/
def runHeroNext (len : Int) : Nat → Int → Int
  | 0, c => c
  | k + 1, c => runHeroNext len k (heroNextIndex len c)

/-- Feature carousel: `index` after a sequence of `next`/`prev` calls. -/
def runFeature (cardsLength : Int) : List Nav → Int → Int
  | [], c => c
  | Nav.next :: rest, c => runFeature cardsLength rest (featNext cardsLength c)
  | Nav.prev :: rest, c => runFeature cardsLength rest (featPrev cardsLength c)

/-! ## Interval timers (`setInterval` / `clearInterval`)

The state a widget's autoplay code can observe and change: its variable `timer`, the
interval timers it has created that are still running, and the page's handle counter.
`setInterval` returns a fresh handle that is a positive integer, so a handle is always
truthy in `if (timer)`. -/

/-- The timer state of one autoplay widget. -/
structure Timers where
  /-- The variable `timer`: `none` is `null`, `some h` a handle returned by `setInterval`. -/
  timer : Option Nat
  /-- Handles of the interval timers created by this widget and not yet cleared. -/
  live : List Nat
  /-- The largest handle handed out so far. -/
  fresh : Nat
  deriving DecidableEq, Repr

/-- JavaScript truthiness of the variable `timer`: `null` and `0` are falsy. -/
def truthy : Option Nat → Bool
  | none => false
  | some h => h != 0

/-- Embeds `timer = setInterval(callback, INTERVAL)`: a new positive handle is allocated, stored
in `timer`, and its interval starts running. -/
def setIntervalInto (t : Timers) : Timers :=
  { timer := some (t.fresh + 1), live := (t.fresh + 1) :: t.live, fresh := t.fresh + 1 }

/-- Embeds `clearInterval(handle)`: the interval with that handle, if any, stops running.
`clearInterval(null)` clears nothing. -/
def clearInterval (handle : Option Nat) (t : Timers) : Timers :=
  match handle with
  | none => t
  | some h => { t with live := t.live.filter (fun x => x != h) }

/-- Hero slider (main.js, lines 102-105):
`function start() { if (timer) return; timer = setInterval(() => next(), INTERVAL); }`. -/
def start (t : Timers) : Timers :=
  if truthy t.timer then t else setIntervalInto t

/-- Hero slider (main.js, line 106):
`function stop() { if (timer) { clearInterval(timer); timer = null; } }`. -/
def stop (t : Timers) : Timers :=
  if truthy t.timer then { clearInterval t.timer t with timer := none } else t

/-- Hero slider (main.js, line 107): `function restart() { stop(); start(); }`. -/
def restart (t : Timers) : Timers :=
  start (stop t)

/-- Feature carousel (main.js, line 599):
`function startAuto() { if (timer) return; timer = setInterval(next, INTERVAL); }`. -/
def startAuto (t : Timers) : Timers :=
  if truthy t.timer then t else setIntervalInto t

/-- Feature carousel (main.js, line 600):
`function stopAuto() { if (!timer) return; clearInterval(timer); timer = null; }`. -/
def stopAuto (t : Timers) : Timers :=
  if !truthy t.timer then t else { clearInterval t.timer t with timer := none }

/-- Feature carousel (main.js, line 601):
`function resetAuto() { stopAuto(); startAuto(); }`. -/
def resetAuto (t : Timers) : Timers :=
  startAuto (stopAuto t)

/-- A call of one of the three autoplay operations. -/
inductive TimerOp where
  | start
  | stop
  | restart
  deriving DecidableEq, Repr

/-- The state when the widget is set up: `let timer = null;` and no interval created
yet; `fresh` is whatever the rest of the page has already used. -/
def timersInit (fresh : Nat) : Timers :=
  { timer := none, live := [], fresh := fresh }

/-- Hero slider: the timer state after a sequence of `start`/`stop`/`restart` calls. -/
def runHeroTimer : List TimerOp → Timers → Timers
  | [], t => t
  | TimerOp.start :: rest, t => runHeroTimer rest (start t)
  | TimerOp.stop :: rest, t => runHeroTimer rest (stop t)
  | TimerOp.restart :: rest, t => runHeroTimer rest (restart t)

/-- Feature carousel: the timer state after a sequence of
`startAuto`/`stopAuto`/`resetAuto` calls. -/
def runFeatureTimer : List TimerOp → Timers → Timers
  | [], t => t
  | TimerOp.start :: rest, t => runFeatureTimer rest (startAuto t)
  | TimerOp.stop :: rest, t => runFeatureTimer rest (stopAuto t)
  | TimerOp.restart :: rest, t => runFeatureTimer rest (resetAuto t)

/-- Consistency of a timer state: either `timer` is `null` and no interval of the widget
is running, or `timer` holds a non-zero handle and exactly that interval is running. -/
def TimersOk (t : Timers) : Prop :=
  (t.timer = none ∧ t.live = []) ∨ (∃ h : Nat, h ≠ 0 ∧ t.timer = some h ∧ t.live = [h])

/-! ## Hero crossfade slider (main.js, lines 32-122) -/

/-- The two transition classes of a `.slide` element. -/
structure Slide where
  /-- The element has class `is-active`. -/
  isActive : Bool
  /-- The element has class `is-leaving`. -/
  isLeaving : Bool
  deriving DecidableEq, Repr

/-- The state of the hero slider. -/
structure Hero where
  /-- The classes of the elements of `slides`. -/
  slides : List Slide
  /-- For each child of `dotsWrap`, whether it has class `active`. -/
  dots : List Bool
  /-- The variable `current`. -/
  current : Int
  /-- The variable `timer` and the intervals it refers to. -/
  tm : Timers
  deriving DecidableEq, Repr

/-- The loop of `show(i)` over the slides, from position `idx` on:
`s.classList.remove('is-active', 'is-leaving'); if (idx === i) s.classList.add('is-active')`. -/
def showSlides (i : Int) : Nat → List Slide → List Slide
  | _, [] => []
  | idx, _ :: rest =>
    { isActive := decide ((idx : Int) = i), isLeaving := false } :: showSlides i (idx + 1) rest

/-- The loop of `show(i)` over the dots, from position `idx` on:
`d.classList.toggle('active', idx === i)`. -/
def showDots (i : Int) : Nat → List Bool → List Bool
  | _, [] => []
  | idx, _ :: rest => decide ((idx : Int) = i) :: showDots i (idx + 1) rest

/-- Embeds `show(i)` (main.js, lines 80-86). -/
def heroShow (i : Int) (s : Hero) : Hero :=
  { s with slides := showSlides i 0 s.slides, dots := showDots i 0 s.dots }

/-- Embeds `slides[current].classList.add('is-leaving')`: when `current` is not an index of
`slides` the element is `undefined` and the property access throws (`none`). -/
def addLeaving (slides : List Slide) (current : Int) : Option (List Slide) :=
  if 0 ≤ current then
    match slides[current.toNat]? with
    | some sl => some (slides.set current.toNat { sl with isLeaving := true })
    | none => none
  else none

/-- Embeds `next()` of the hero slider (main.js, lines 88-92). -/
def heroNext (s : Hero) : Option Hero :=
  match addLeaving s.slides s.current with
  | none => none
  | some sl =>
    let current := heroNextIndex s.slides.length s.current
    some (heroShow current { s with slides := sl, current := current })

/-- Embeds `goTo(i)` of the hero slider (main.js, lines 94-100):
```
if (i === current) return;
slides[current].classList.add('is-leaving');
current = i % slides.length;
show(current);
restart();
```
-/
def heroGoTo (i : Int) (s : Hero) : Option Hero :=
  if i = s.current then some s
  else
    match addLeaving s.slides s.current with
    | none => none
    | some sl =>
      let current := i.tmod s.slides.length
      let s1 := heroShow current { s with slides := sl, current := current }
      some { s1 with tm := restart s1.tm }

/-- The hero slider right after `buildDots(); show(0)` with `n` slides and the given
timer state: slide 0 and dot 0 are active, `current` is 0. -/
def heroInit (n : Nat) (tm : Timers) : Hero :=
  heroShow 0
    { slides := List.replicate n { isActive := false, isLeaving := false },
      dots := List.replicate n false, current := 0, tm := tm }

/-! ## Galleries with lightbox (projects: main.js, lines 449-512; clients: lines 247-307) -/

/-- The values `document.body.style.overflow` takes in the file. -/
inductive Overflow where
  /-- The value `'hidden'`: page scroll is suspended. -/
  | hidden
  /-- The empty string `''`: the inline style is removed, the page scrolls. -/
  | unset
  /-- The value `'auto'` (written by the navigation toggle only). -/
  | auto
  deriving DecidableEq, Repr

/-- The state of one gallery widget (projects or clients) and of the page scroll. -/
structure Gallery where
  /-- The variable `currentIndex`. -/
  currentIndex : Int
  /-- The index of the array entry last assigned to the lightbox image's `src`. -/
  shown : Int
  /-- The lightbox overlay has class `active`. -/
  lightboxActive : Bool
  /-- The lightbox overlay's attribute `aria-hidden` is `'true'`. -/
  lightboxAriaHidden : Bool
  /-- The full-gallery modal has class `active`. -/
  fullActive : Bool
  /-- The full-gallery modal's attribute `aria-hidden` is `'true'`. -/
  fullAriaHidden : Bool
  /-- The value of `document.body.style.overflow`. -/
  bodyOverflow : Overflow
  deriving DecidableEq, Repr

/-- Embeds `openLightbox(index)` (main.js, lines 478-486). -/
def openLightbox (index : Int) (g : Gallery) : Gallery :=
  { g with currentIndex := index, shown := index, lightboxAriaHidden := false,
           lightboxActive := true, bodyOverflow := Overflow.hidden }

/-- Embeds `closeLightbox()` (main.js, lines 487-491). -/
def closeLightbox (g : Gallery) : Gallery :=
  { g with lightboxActive := false, lightboxAriaHidden := true,
           bodyOverflow := Overflow.unset }

/-- Embeds `openFullGallery()` (main.js, lines 502-507). -/
def openFullGallery (g : Gallery) : Gallery :=
  { g with fullActive := true, fullAriaHidden := false, bodyOverflow := Overflow.hidden }

/-- Embeds `closeFullGallery()` (main.js, lines 508-512). -/
def closeFullGallery (g : Gallery) : Gallery :=
  { g with fullActive := false, fullAriaHidden := true, bodyOverflow := Overflow.unset }

/-- Embeds `openClientLightbox(index)` (main.js, lines 274-281). -/
def openClientLightbox (index : Int) (g : Gallery) : Gallery :=
  { g with currentIndex := index, shown := index, lightboxActive := true,
           lightboxAriaHidden := false, bodyOverflow := Overflow.hidden }

/-- Embeds `closeClientLightbox()` (main.js, lines 282-286). -/
def closeClientLightbox (g : Gallery) : Gallery :=
  { g with lightboxActive := false, lightboxAriaHidden := true,
           bodyOverflow := Overflow.unset }

/-- Embeds `openClientsFull()` (main.js, lines 297-302). -/
def openClientsFull (g : Gallery) : Gallery :=
  { g with fullActive := true, fullAriaHidden := false, bodyOverflow := Overflow.hidden }

/-- Embeds `closeClientsFull()` (main.js, lines 303-307). -/
def closeClientsFull (g : Gallery) : Gallery :=
  { g with fullActive := false, fullAriaHidden := true, bodyOverflow := Overflow.unset }

/-- The user actions on a gallery widget. -/
inductive GalleryAction where
  /-- Click on thumbnail `i` of the grid. -/
  | thumbClick (i : Nat)
  /-- Click on item `i` of the full grid inside the modal. -/
  | fullItemClick (i : Nat)
  /-- Click on the button that opens the full-gallery modal. -/
  | openFull
  /-- Click on the modal's close button. -/
  | closeFull
  /-- Click on the lightbox's close button. -/
  | lbClose
  /-- Click on the lightbox's previous button. -/
  | lbPrev
  /-- Click on the lightbox's next button. -/
  | lbNext
  deriving DecidableEq, Repr

/-- The handlers of the projects gallery (main.js, lines 456, 468-471, 515-517, 536-537),
with `len = IMAGES.length`. -/
def galleryStep (len : Int) (g : Gallery) : GalleryAction → Gallery
  | GalleryAction.thumbClick i => openLightbox i g
  | GalleryAction.fullItemClick i => closeFullGallery (openLightbox i g)
  | GalleryAction.openFull => openFullGallery g
  | GalleryAction.closeFull => closeFullGallery g
  | GalleryAction.lbClose => closeLightbox g
  | GalleryAction.lbPrev =>
    { g with currentIndex := showPrev len g.currentIndex,
             shown := showPrev len g.currentIndex }
  | GalleryAction.lbNext =>
    { g with currentIndex := showNext len g.currentIndex,
             shown := showNext len g.currentIndex }

/-- The handlers of the clients gallery (main.js, lines 254, 267, 310-312, 329-330),
with `len = CLIENT_LOGOS.length`. -/
def clientsStep (len : Int) (g : Gallery) : GalleryAction → Gallery
  | GalleryAction.thumbClick i => openClientLightbox i g
  | GalleryAction.fullItemClick i => closeClientsFull (openClientLightbox i g)
  | GalleryAction.openFull => openClientsFull g
  | GalleryAction.closeFull => closeClientsFull g
  | GalleryAction.lbClose => closeClientLightbox g
  | GalleryAction.lbPrev =>
    { g with currentIndex := showClientPrev len g.currentIndex,
             shown := showClientPrev len g.currentIndex }
  | GalleryAction.lbNext =>
    { g with currentIndex := showClientNext len g.currentIndex,
             shown := showClientNext len g.currentIndex }

/-- The page as loaded: `let currentIndex = 0`, both overlays closed, scroll free. -/
def galleryInit : Gallery :=
  { currentIndex := 0, shown := 0, lightboxActive := false, lightboxAriaHidden := true,
    fullActive := false, fullAriaHidden := true, bodyOverflow := Overflow.unset }

/-- Projects gallery: the state after a sequence of user actions. -/
def runGallery (len : Int) (acts : List GalleryAction) (g : Gallery) : Gallery :=
  acts.foldl (galleryStep len) g

/-- Clients gallery: the state after a sequence of user actions. -/
def runClients (len : Int) (acts : List GalleryAction) (g : Gallery) : Gallery :=
  acts.foldl (clientsStep len) g

/-- The lightbox overlay is open: class `active` and `aria-hidden` is `'false'`. -/
def lightboxOpen (g : Gallery) : Bool :=
  g.lightboxActive && !g.lightboxAriaHidden

/-- Page scroll is suspended: `document.body.style.overflow` is `'hidden'`. -/
def scrollSuspended (g : Gallery) : Bool :=
  decide (g.bodyOverflow = Overflow.hidden)

/-! ## Scroll-driven transform: progress (main.js, lines 160-171) -/

/-- Embeds `const clamp = (v, a, b) => Math.max(a, Math.min(b, v));`. -/
def clamp (v a b : Rat) : Rat :=
  max a (min b v)

/-- Embeds `sectionProgress()`, as a function of the viewport height `vh`, the wrapper's
`rect.height` and its `rect.top`:
```
const denom = vh + rect.height;
if (denom === 0) return 0;
let p = (vh - rect.top) / denom;
return clamp(p, 0, 1);
```
-/
def sectionProgress (vh height top : Rat) : Rat :=
  let denom := vh + height
  if denom = 0 then 0
  else
    let p := (vh - top) / denom
    clamp p 0 1

/-! ## Scroll-driven transform: easing and interpolation (main.js, lines 152-191)

The decimal constants of the source are taken as the exact rationals they denote. -/

/-- Embeds `const SCALE_MIN = 0.55;`. -/
def SCALE_MIN : Rat := 55 / 100

/-- Embeds `const SCALE_MAX = 1.18;`. -/
def SCALE_MAX : Rat := 118 / 100

/-- Embeds `const ROT_MIN = -40;`. -/
def ROT_MIN : Rat := -40

/-- Embeds `const ROT_MAX = 40;`. -/
def ROT_MAX : Rat := 40

/-- Embeds `const TRANSLATE_Y_MIN = 40;`. -/
def TRANSLATE_Y_MIN : Rat := 40

/-- Embeds `const TRANSLATE_Y_MAX = -20;`. -/
def TRANSLATE_Y_MAX : Rat := -20

/-- Embeds `const OPACITY_MIN = 0.95;`. -/
def OPACITY_MIN : Rat := 95 / 100

/-- Embeds `const lerp = (a, b, t) => a + (b - a) * t;`. -/
def lerp (a b t : Rat) : Rat :=
  a + (b - a) * t

/-- Embeds `const easeInOutQuad = t => t < 0.5 ? 2 * t * t : -1 + (4 - 2 * t) * t;`. -/
def easeInOutQuad (t : Rat) : Rat :=
  if t < 1 / 2 then 2 * t * t else -1 + (4 - 2 * t) * t

/-- What one call of `update` writes: the five interpolated parameters of the image's
transform and opacity, and whether the wrapper gets class `is-active`. -/
structure Transform where
  /-- The value `scale` of `scale(...)`. -/
  scale : Rat
  /-- The value `rotY` of `rotateY(...deg)`. -/
  rotY : Rat
  /-- The value `rotX` of `rotateX(...deg)`. -/
  rotX : Rat
  /-- The value `ty` of `translate3d(0px, ...px, 0px)`. -/
  ty : Rat
  /-- The value `opacity`, before `toFixed(3)` formats it. -/
  opacity : Rat
  /-- The wrapper has class `is-active` (`p > 0.02`). -/
  isActive : Bool
  deriving DecidableEq, Repr

/-- The body of `update` from the progress `p` on (main.js, lines 176-188):
```
const e = easeInOutQuad(p);
const scale = lerp(SCALE_MIN, SCALE_MAX, e);
const rotY = lerp(ROT_MIN, ROT_MAX, e);
const rotX = lerp(6, -2, e);
const ty = lerp(TRANSLATE_Y_MIN, TRANSLATE_Y_MAX, e);
const opacity = lerp(OPACITY_MIN, 1, e);
if (p > 0.02) wrapper.classList.add('is-active'); else wrapper.classList.remove('is-active');
```
-/
def updateParams (p : Rat) : Transform :=
  let e := easeInOutQuad p
  { scale := lerp SCALE_MIN SCALE_MAX e,
    rotY := lerp ROT_MIN ROT_MAX e,
    rotX := lerp 6 (-2) e,
    ty := lerp TRANSLATE_Y_MIN TRANSLATE_Y_MAX e,
    opacity := lerp OPACITY_MIN 1 e,
    isActive := decide (p > 2 / 100) }

/-! ## Scroll-driven transform: frame-coalesced rendering (main.js, lines 173-203)

`requestAnimationFrame` returns a fresh handle and queues the callback for the next
animation frame; when the frame fires the browser runs every queued callback once and
empties the queue. -/

/-- The state of the scroll transform's scheduler. -/
structure Scroll where
  /-- The variable `raf`: `none` is `null`, `some h` a handle of `requestAnimationFrame`. -/
  raf : Option Nat
  /-- Handles of the `update` callbacks queued for the next frame. -/
  pending : List Nat
  /-- The largest handle handed out so far. -/
  fresh : Nat
  /-- How many times `update` has been called. -/
  updates : Nat
  /-- What the last call of `update` wrote, if there was one. -/
  style : Option Transform
  deriving DecidableEq, Repr

/-- Embeds `update()` (main.js, lines 174-191), reading the live geometry `vh`,
`rect.height`, `rect.top`: the transform is recomputed and written, then `raf = null`. -/
def update (vh height top : Rat) (s : Scroll) : Scroll :=
  let p := sectionProgress vh height top
  { s with style := some (updateParams p), updates := s.updates + 1, raf := none }

/-- Embeds `schedule()` (main.js, lines 193-195):
`if (raf === null) raf = requestAnimationFrame(update);`. -/
def schedule (s : Scroll) : Scroll :=
  match s.raf with
  | none =>
    { s with raf := some (s.fresh + 1), pending := s.pending ++ [s.fresh + 1],
             fresh := s.fresh + 1 }
  | some _ => s

/-- The animation frame fires with the geometry of that moment: every queued callback
runs once, in order, and the queue is emptied. -/
def frameFires (vh height top : Rat) (s : Scroll) : Scroll :=
  s.pending.foldl (fun acc _ => update vh height top acc) { s with pending := [] }

/-- The events of the scroll transform. -/
inductive ScrollEvent where
  /-- A viewport signal (`scroll`, `resize`, `orientationchange`, or the initial call):
  `schedule()` runs. -/
  | signal
  /-- An animation frame fires while the geometry is `vh`, `height`, `top`. -/
  | frame (vh height top : Rat)
  deriving DecidableEq, Repr

/-- One step of the scroll transform. -/
def scrollStep (s : Scroll) : ScrollEvent → Scroll
  | ScrollEvent.signal => schedule s
  | ScrollEvent.frame vh height top => frameFires vh height top s

/-- The state after a sequence of events. -/
def runScroll (evs : List ScrollEvent) (s : Scroll) : Scroll :=
  evs.foldl scrollStep s

/-- A burst of `k` viewport signals with no frame in between. -/
def signals : Nat → Scroll → Scroll
  | 0, s => s
  | k + 1, s => signals k (schedule s)

/-- The state at `let raf = null;`, before the initial `schedule()`: nothing queued, no
`update` run yet. -/
def scrollInit (fresh : Nat) : Scroll :=
  { raf := none, pending := [], fresh := fresh, updates := 0, style := none }

/-- Consistency of the scheduler: either `raf` is `null` and nothing is queued, or `raf`
holds a handle and exactly that callback is queued. -/
def ScrollOk (s : Scroll) : Prop :=
  (s.raf = none ∧ s.pending = []) ∨ (∃ h : Nat, s.raf = some h ∧ s.pending = [h])

/-! ## Theorems -/

/-! ### Wrap-around arithmetic -/

/-- A forward wrap-around step from an index in `[0, len)`. -/
theorem tmod_wrap_next (len c : Int) (hc0 : 0 ≤ c) (hc : c < len) :
    (c + 1).tmod len = if c + 1 = len then 0 else c + 1 := by
  split_ifs with h
  · rw [h]; exact Int.tmod_self
  · exact Int.tmod_eq_of_lt (by omega) (by omega)

/-- Adding the modulus once to a value in `[0, len)` does not change its remainder. -/
theorem tmod_add_self_of_range (len r : Int) (hr0 : 0 ≤ r) (hr : r < len) :
    (r + len).tmod len = r := by
  have h1 : 0 ≤ r + len := by omega
  have h2 : 0 ≤ len := by omega
  rw [Int.tmod_eq_emod h1 h2, Int.add_emod_self, Int.emod_eq_of_lt hr0 hr]

/-- A backward wrap-around step from an index in `[0, len)`. -/
theorem tmod_wrap_prev (len c : Int) (hc0 : 0 ≤ c) (hc : c < len) :
    (c - 1 + len).tmod len = if c = 0 then len - 1 else c - 1 := by
  split_ifs with h
  · subst h
    have e : (0 : Int) - 1 + len = len - 1 := by omega
    have h1 : (0 : Int) ≤ len - 1 := by omega
    have h2 : len - 1 < len := by omega
    rw [e]
    exact Int.tmod_eq_of_lt h1 h2
  · exact tmod_add_self_of_range len (c - 1) (by omega) (by omega)

/-- The truncated remainder of a negative dividend by a positive divisor lies in
`(-len, 0]`. -/
theorem tmod_neg_dividend_range (len i : Int) (hlen : 0 < len) (hi : i < 0) :
    i.tmod len ≤ 0 ∧ -len < i.tmod len := by
  obtain ⟨m, rfl⟩ := Int.eq_succ_of_zero_lt hlen
  obtain ⟨k, rfl⟩ := Int.eq_negSucc_of_lt_zero hi
  have hlt : (k + 1) % (m + 1) < m + 1 := Nat.mod_lt _ (Nat.succ_pos m)
  have hdef : (Int.negSucc k).tmod ((m.succ : Nat) : Int)
      = -(((k.succ % m.succ : Nat) : Int)) := rfl
  rw [hdef]
  have : ((k.succ % m.succ : Nat) : Int) < ((m.succ : Nat) : Int) :=
    Int.ofNat_lt.2 hlt
  have h0 : (0 : Int) ≤ ((k.succ % m.succ : Nat) : Int) := Int.ofNat_nonneg _
  constructor <;> omega

/-- The range `[0, len)` is closed under the forward step. -/
theorem tmod_succ_range (len c : Int) (hc0 : 0 ≤ c) (hc : c < len) :
    0 ≤ (c + 1).tmod len ∧ (c + 1).tmod len < len := by
  rw [tmod_wrap_next len c hc0 hc]
  split_ifs <;> omega

/-- The range `[0, len)` is closed under the backward step. -/
theorem tmod_pred_range (len c : Int) (hc0 : 0 ≤ c) (hc : c < len) :
    0 ≤ (c - 1 + len).tmod len ∧ (c - 1 + len).tmod len < len := by
  rw [tmod_wrap_prev len c hc0 hc]
  split_ifs <;> omega

/-! ### Index ranges under sequences of steps -/

/-- The projects lightbox index stays in `[0, len)` along any sequence of steps. -/
theorem runLightbox_range (len : Int) (steps : List Nav) :
    ∀ c : Int, 0 ≤ c → c < len →
      0 ≤ runLightbox len steps c ∧ runLightbox len steps c < len := by
  induction steps with
  | nil => intro c h0 h1; exact ⟨h0, h1⟩
  | cons a rest ih =>
    intro c h0 h1
    cases a with
    | next =>
      have h := tmod_succ_range len c h0 h1
      exact ih (showNext len c) h.1 h.2
    | prev =>
      have h := tmod_pred_range len c h0 h1
      exact ih (showPrev len c) h.1 h.2

/-- The clients lightbox index stays in `[0, len)` along any sequence of steps. -/
theorem runClientLightbox_range (len : Int) (steps : List Nav) :
    ∀ c : Int, 0 ≤ c → c < len →
      0 ≤ runClientLightbox len steps c ∧ runClientLightbox len steps c < len := by
  induction steps with
  | nil => intro c h0 h1; exact ⟨h0, h1⟩
  | cons a rest ih =>
    intro c h0 h1
    cases a with
    | next =>
      have h := tmod_succ_range len c h0 h1
      exact ih (showClientNext len c) h.1 h.2
    | prev =>
      have h := tmod_pred_range len c h0 h1
      exact ih (showClientPrev len c) h.1 h.2

/-- The testimonials `start` stays in `[0, len)` along any sequence of steps. -/
theorem runTestimonials_range (len : Int) (steps : List Nav) :
    ∀ c : Int, 0 ≤ c → c < len →
      0 ≤ runTestimonials len steps c ∧ runTestimonials len steps c < len := by
  induction steps with
  | nil => intro c h0 h1; exact ⟨h0, h1⟩
  | cons a rest ih =>
    intro c h0 h1
    cases a with
    | next =>
      have h := tmod_succ_range len c h0 h1
      exact ih (testimonialsNext len c) h.1 h.2
    | prev =>
      have h := tmod_pred_range len c h0 h1
      exact ih (testimonialsPrev len c) h.1 h.2

/-- The hero slider's `current` stays in `[0, len)` along any number of `next` calls. -/
theorem runHeroNext_range (len : Int) (k : Nat) :
    ∀ c : Int, 0 ≤ c → c < len →
      0 ≤ runHeroNext len k c ∧ runHeroNext len k c < len := by
  induction k with
  | zero => intro c h0 h1; exact ⟨h0, h1⟩
  | succ k ih =>
    intro c h0 h1
    have h := tmod_succ_range len c h0 h1
    exact ih (heroNextIndex len c) h.1 h.2

/-- The feature carousel's `goTo` lands in `[0, maxIndex]` whenever `maxIndex ≥ 0`. -/
theorem featGoTo_range (cardsLength i : Int) (hn : visibleCount ≤ cardsLength) :
    0 ≤ featGoTo cardsLength i ∧ featGoTo cardsLength i ≤ cardsLength - visibleCount := by
  unfold featGoTo
  simp only [visibleCount] at *
  split_ifs <;> omega

/-- The feature carousel's `index` stays in `[0, maxIndex]` along any sequence of
steps. -/
theorem runFeature_range (cardsLength : Int) (hn : visibleCount ≤ cardsLength)
    (steps : List Nav) :
    ∀ c : Int, 0 ≤ c → c ≤ cardsLength - visibleCount →
      0 ≤ runFeature cardsLength steps c ∧
        runFeature cardsLength steps c ≤ cardsLength - visibleCount := by
  induction steps with
  | nil => intro c h0 h1; exact ⟨h0, h1⟩
  | cons a rest ih =>
    intro c _ _
    cases a with
    | next =>
      have h := featGoTo_range cardsLength (c + 1) hn
      exact ih (featNext cardsLength c) h.1 h.2
    | prev =>
      have h := featGoTo_range cardsLength (c - 1) hn
      exact ih (featPrev cardsLength c) h.1 h.2

/-! ### C1 -/

/-- C1: for every item list of length `n ≥ 1` and every starting index `c` in `[0, n)`,
after any finite sequence of steps (`showNext`/`showPrev` of the projects lightbox,
`showClientNext`/`showClientPrev` of the clients lightbox, `next`/`prev` of the
testimonials carousel, `k` calls of `next` of the hero slider) the index is in
`[0, n)`. -/
theorem C1_index_in_range (n c : Int) (_hn : 1 ≤ n) (hc0 : 0 ≤ c) (hc : c < n)
    (steps : List Nav) (k : Nat) :
    (0 ≤ runLightbox n steps c ∧ runLightbox n steps c < n) ∧
    (0 ≤ runClientLightbox n steps c ∧ runClientLightbox n steps c < n) ∧
    (0 ≤ runTestimonials n steps c ∧ runTestimonials n steps c < n) ∧
    (0 ≤ runHeroNext n k c ∧ runHeroNext n k c < n) :=
  ⟨runLightbox_range n steps c hc0 hc, runClientLightbox_range n steps c hc0 hc,
    runTestimonials_range n steps c hc0 hc, runHeroNext_range n k c hc0 hc⟩

/-- C1 at the sizes in the file: the projects lightbox has 20 images; two `showPrev`
from index 0 followed by three `showNext` end at index 1. -/
theorem C1_index_in_range_witness :
    (0 ≤ runLightbox 20 [Nav.prev, Nav.prev, Nav.next, Nav.next, Nav.next] 0 ∧
      runLightbox 20 [Nav.prev, Nav.prev, Nav.next, Nav.next, Nav.next] 0 < 20) ∧
    (0 ≤ runClientLightbox 20 [Nav.prev, Nav.prev, Nav.next, Nav.next, Nav.next] 0 ∧
      runClientLightbox 20 [Nav.prev, Nav.prev, Nav.next, Nav.next, Nav.next] 0 < 20) ∧
    (0 ≤ runTestimonials 20 [Nav.prev, Nav.prev, Nav.next, Nav.next, Nav.next] 0 ∧
      runTestimonials 20 [Nav.prev, Nav.prev, Nav.next, Nav.next, Nav.next] 0 < 20) ∧
    (0 ≤ runHeroNext 20 7 0 ∧ runHeroNext 20 7 0 < 20) :=
  C1_index_in_range 20 0 (by decide) (by decide) (by decide)
    [Nav.prev, Nav.prev, Nav.next, Nav.next, Nav.next] 7

/-! ### C3 -/

/-- C3: one advance followed by one retreat restores the index `c`: for every length
`n ≥ 1` and `c` in `[0, n)` in the projects lightbox, the clients lightbox and the
testimonials carousel, and for the feature carousel with at least `visibleCount`
cards and `c` in `[0, cards.length - visibleCount]`. -/
theorem C3_next_then_prev_restores (n c : Int) :
    (1 ≤ n → 0 ≤ c → c < n →
      showPrev n (showNext n c) = c ∧
      showClientPrev n (showClientNext n c) = c ∧
      testimonialsPrev n (testimonialsNext n c) = c) ∧
    (visibleCount ≤ n → 0 ≤ c → c ≤ n - visibleCount →
      featPrev n (featNext n c) = c) := by
  constructor
  · intro _ hc0 hc
    have key : ((c + 1).tmod n - 1 + n).tmod n = c := by
      have h := tmod_succ_range n c hc0 hc
      rw [tmod_wrap_prev n _ h.1 h.2, tmod_wrap_next n c hc0 hc]
      split_ifs <;> omega
    exact ⟨key, key, key⟩
  · intro hn hc0 hc
    unfold featPrev featNext featGoTo
    simp only [visibleCount] at *
    split_ifs <;> omega

/-- C3 on concrete widgets: the last of 20 images, and the last window of 7 cards. -/
theorem C3_next_then_prev_restores_witness :
    (showPrev 20 (showNext 20 19) = 19 ∧
      showClientPrev 20 (showClientNext 20 19) = 19 ∧
      testimonialsPrev 20 (testimonialsNext 20 19) = 19) ∧
    featPrev 7 (featNext 7 4) = 4 :=
  ⟨(C3_next_then_prev_restores 20 19).1 (by decide) (by decide) (by decide),
    (C3_next_then_prev_restores 7 4).2 (by decide) (by decide) (by decide)⟩

/-! ### C4 -/

/-- C4: for the feature carousel with `n ≥ 3` cards (`maxIndex = n - visibleCount`) and
every integer `i`, `goTo(i)` sets `index` to `maxIndex` when `i < 0`, to `0` when
`i > maxIndex`, and to `i` otherwise, so `index` is always in `[0, maxIndex]`; with
`n = 7`, `next()` from index 4 gives 0 and `prev()` from index 0 gives 4. -/
theorem C4_featGoTo_wraps (n i : Int) (hn : 3 ≤ n) :
    (i < 0 → featGoTo n i = n - visibleCount) ∧
    (i > n - visibleCount → featGoTo n i = 0) ∧
    (0 ≤ i → i ≤ n - visibleCount → featGoTo n i = i) ∧
    (0 ≤ featGoTo n i ∧ featGoTo n i ≤ n - visibleCount) ∧
    featNext 7 4 = 0 ∧ featPrev 7 0 = 4 := by
  refine ⟨?_, ?_, ?_, featGoTo_range n i (by simpa [visibleCount] using hn), by decide,
    by decide⟩
  · intro hi
    unfold featGoTo
    simp only [visibleCount] at *
    split_ifs <;> omega
  · intro hi
    unfold featGoTo
    simp only [visibleCount] at *
    split_ifs <;> omega
  · intro h0 h1
    unfold featGoTo
    simp only [visibleCount] at *
    split_ifs <;> omega

/-- C4 with 7 cards: `goTo(-1)` gives 4, `goTo(5)` gives 0, `goTo(2)` gives 2. -/
theorem C4_featGoTo_wraps_witness :
    featGoTo 7 (-1) = 7 - visibleCount ∧ featGoTo 7 5 = 0 ∧ featGoTo 7 2 = 2 :=
  ⟨(C4_featGoTo_wraps 7 (-1) (by decide)).1 (by decide),
    (C4_featGoTo_wraps 7 5 (by decide)).2.1 (by decide),
    (C4_featGoTo_wraps 7 2 (by decide)).2.2.1 (by decide) (by decide)⟩

/-! ### C5 -/

/-- C5 fails as stated: with 5 testimonials and `VISIBLE = 3`, three `next` calls from
`start = 0` leave `start = 3`, outside `[0, 2]`. -/
theorem C5_testimonials_leaves_window :
    runTestimonials TESTIMONIALS_LENGTH [Nav.next, Nav.next, Nav.next] 0 = 3 ∧
    ¬ (∀ steps : List Nav,
        0 ≤ runTestimonials TESTIMONIALS_LENGTH steps 0 ∧
        runTestimonials TESTIMONIALS_LENGTH steps 0 ≤ TESTIMONIALS_LENGTH - VISIBLE) :=
  ⟨by decide, fun h => absurd (h [Nav.next, Nav.next, Nav.next]).2 (by decide)⟩

/-- C5, amended: the feature carousel (window of `visibleCount = 3` cards) keeps
`index` in `[0, cards.length - visibleCount]` along any sequence of `next`/`prev`; the
testimonials carousel (`VISIBLE = 3`, 5 testimonials) wraps per item: along any sequence
of `next`/`prev` from `start = 0`, `start` is in `[0, 5)` and each index
`(start + i) % 5` with `i ≥ 0`, as `render` reads for `i = 0, 1, 2`, is in `[0, 5)`. -/
theorem C5_window_ranges (n c : Int) (hn : 3 ≤ n) (hc0 : 0 ≤ c)
    (hc : c ≤ n - visibleCount) (steps : List Nav) (i : Int) (hi0 : 0 ≤ i) :
    (0 ≤ runFeature n steps c ∧ runFeature n steps c ≤ n - visibleCount) ∧
    (0 ≤ runTestimonials TESTIMONIALS_LENGTH steps 0 ∧
      runTestimonials TESTIMONIALS_LENGTH steps 0 < TESTIMONIALS_LENGTH) ∧
    (0 ≤ testimonialsRenderIdx TESTIMONIALS_LENGTH
          (runTestimonials TESTIMONIALS_LENGTH steps 0) i ∧
      testimonialsRenderIdx TESTIMONIALS_LENGTH
          (runTestimonials TESTIMONIALS_LENGTH steps 0) i < TESTIMONIALS_LENGTH) := by
  have ht := runTestimonials_range TESTIMONIALS_LENGTH steps 0 (by decide) (by decide)
  refine ⟨runFeature_range n (by simpa [visibleCount] using hn) steps c hc0 hc, ht, ?_, ?_⟩
  · exact Int.tmod_nonneg _ (by omega)
  · exact Int.tmod_lt_of_pos _ (by decide)

/-- C5, amended, on 7 cards and the 5 testimonials after `prev` then `next`, `next`. -/
theorem C5_window_ranges_witness :
    (0 ≤ runFeature 7 [Nav.prev, Nav.next, Nav.next] 0 ∧
      runFeature 7 [Nav.prev, Nav.next, Nav.next] 0 ≤ 7 - visibleCount) ∧
    (0 ≤ runTestimonials TESTIMONIALS_LENGTH [Nav.prev, Nav.next, Nav.next] 0 ∧
      runTestimonials TESTIMONIALS_LENGTH [Nav.prev, Nav.next, Nav.next] 0
        < TESTIMONIALS_LENGTH) ∧
    (0 ≤ testimonialsRenderIdx TESTIMONIALS_LENGTH
          (runTestimonials TESTIMONIALS_LENGTH [Nav.prev, Nav.next, Nav.next] 0) 2 ∧
      testimonialsRenderIdx TESTIMONIALS_LENGTH
          (runTestimonials TESTIMONIALS_LENGTH [Nav.prev, Nav.next, Nav.next] 0) 2
        < TESTIMONIALS_LENGTH) :=
  C5_window_ranges 7 0 (by decide) (by decide) (by decide)
    [Nav.prev, Nav.next, Nav.next] 2 (by decide)

/-! ### Hero slider: `goTo` -/

/-- The class update on `slides[current]` succeeds for an index inside the list. -/
theorem addLeaving_some (slides : List Slide) (c : Int) (h0 : 0 ≤ c)
    (h1 : c < slides.length) : ∃ sl, addLeaving slides c = some sl := by
  have hlt : c.toNat < slides.length := by omega
  unfold addLeaving
  rw [if_pos h0, List.getElem?_eq_getElem hlt]
  exact ⟨_, rfl⟩

/-- Outside the early return, `goTo(i)` stores `i % slides.length` and restarts the
timer. -/
theorem heroGoTo_of_ne (s : Hero) (i : Int) (hne : i ≠ s.current) (h0 : 0 ≤ s.current)
    (h1 : s.current < s.slides.length) :
    ∃ s', heroGoTo i s = some s' ∧ s'.current = i.tmod s.slides.length ∧
      s'.tm = restart s.tm := by
  obtain ⟨sl, hsl⟩ := addLeaving_some s.slides s.current h0 h1
  unfold heroGoTo
  rw [if_neg hne, hsl]
  exact ⟨_, rfl, rfl, rfl⟩

/-- Every `restart` allocates a new interval handle, so it changes the timer state. -/
theorem restart_fresh (t : Timers) : (restart t).fresh = t.fresh + 1 := by
  obtain ⟨timer, live, fresh⟩ := t
  cases timer with
  | none => simp [restart, start, stop, truthy, setIntervalInto]
  | some h =>
    by_cases hz : h = 0
    · simp [restart, start, stop, truthy, setIntervalInto, hz]
    · simp [restart, start, stop, truthy, setIntervalInto, clearInterval, hz]

/-! ### C2 -/

/-- C2 fails as stated: with 3 slides and `current = 0`, `goTo(-1)` leaves
`current = -1`, whereas `((-1 % 3) + 3) % 3` is 2. -/
theorem C2_heroGoTo_negative :
    (heroGoTo (-1) (heroInit 3 (timersInit 0))).map Hero.current = some (-1) ∧
    (((-1 : Int).tmod 3) + 3).tmod 3 = 2 := by
  decide

/-- C2, amended: for every slide count `n ≥ 1`, every `current` in `[0, n)` and every
integer `i`, `goTo(i)` returns; for `i ≥ 0` it leaves `current` equal to
`((i % n) + n) % n`, which is in `[0, n)`; for `i < 0` it leaves `current` equal to the
truncated remainder `i % n`, which is in `(-n, 0]`. -/
theorem C2_heroGoTo_index (s : Hero) (i : Int) (_hn : 1 ≤ s.slides.length)
    (hc0 : 0 ≤ s.current) (hc : s.current < s.slides.length) :
    ∃ s', heroGoTo i s = some s' ∧
      (0 ≤ i →
        s'.current = ((i.tmod s.slides.length) + s.slides.length).tmod s.slides.length ∧
        0 ≤ s'.current ∧ s'.current < s.slides.length) ∧
      (i < 0 →
        s'.current = i.tmod s.slides.length ∧
        s'.current ≤ 0 ∧ -(s.slides.length : Int) < s'.current) := by
  have hpos : (0 : Int) < s.slides.length := by omega
  by_cases h : i = s.current
  · refine ⟨s, by simp [heroGoTo, h], ?_, ?_⟩
    · intro _
      rw [h, Int.tmod_eq_of_lt hc0 hc, tmod_add_self_of_range _ _ hc0 hc]
      exact ⟨rfl, hc0, hc⟩
    · intro hi
      omega
  · obtain ⟨s', hs', hcur, _⟩ := heroGoTo_of_ne s i h hc0 hc
    refine ⟨s', hs', ?_, ?_⟩
    · intro hi
      have r0 : 0 ≤ i.tmod s.slides.length := Int.tmod_nonneg _ hi
      have r1 : i.tmod s.slides.length < s.slides.length := Int.tmod_lt_of_pos _ hpos
      rw [hcur, tmod_add_self_of_range _ _ r0 r1]
      exact ⟨rfl, r0, r1⟩
    · intro hi
      rw [hcur]
      exact ⟨rfl, tmod_neg_dividend_range _ _ hpos hi⟩

/-- C2, amended, with 3 slides at `current = 0`: `goTo(7)` leaves `current = 1`. -/
theorem C2_heroGoTo_index_witness :
    ∃ s', heroGoTo 7 (heroInit 3 (timersInit 0)) = some s' ∧
      (0 ≤ (7 : Int) →
        s'.current = (((7 : Int).tmod (heroInit 3 (timersInit 0)).slides.length)
          + (heroInit 3 (timersInit 0)).slides.length).tmod
            (heroInit 3 (timersInit 0)).slides.length ∧
        0 ≤ s'.current ∧ s'.current < (heroInit 3 (timersInit 0)).slides.length) ∧
      ((7 : Int) < 0 →
        s'.current = (7 : Int).tmod (heroInit 3 (timersInit 0)).slides.length ∧
        s'.current ≤ 0 ∧ -((heroInit 3 (timersInit 0)).slides.length : Int) < s'.current) :=
  C2_heroGoTo_index (heroInit 3 (timersInit 0)) 7 (by decide) (by decide) (by decide)

/-! ### C6 -/

/-- C6 fails as stated: with 3 slides, `current = 0` and autoplay running on interval
handle 1, `goTo(3)` has `3 mod 3 = current` but is not a no-op: the interval with
handle 1 is cleared and a new one (handle 2) is started. -/
theorem C6_heroGoTo_restarts_timer :
    (3 : Int).tmod 3 = (heroInit 3 (start (timersInit 0))).current ∧
    (heroInit 3 (start (timersInit 0))).tm = { timer := some 1, live := [1], fresh := 1 } ∧
    (heroGoTo 3 (heroInit 3 (start (timersInit 0)))).map Hero.tm
      = some { timer := some 2, live := [2], fresh := 2 } ∧
    heroGoTo 3 (heroInit 3 (start (timersInit 0)))
      ≠ some (heroInit 3 (start (timersInit 0))) := by
  decide

/-- C6, amended: `goTo(i)` is a no-op exactly for `i === current`: the whole state
(index, classes of slides and dots, timer) is returned unchanged; for every other `i`
(also when `i mod n` equals `current`) and `current` in `[0, n)`, `goTo(i)` stores
`i % n` and restarts the autoplay timer, which changes the timer state. -/
theorem C6_heroGoTo_noop (s : Hero) :
    heroGoTo s.current s = some s ∧
    (∀ i : Int, i ≠ s.current → 0 ≤ s.current → s.current < s.slides.length →
      ∃ s', heroGoTo i s = some s' ∧ s'.current = i.tmod s.slides.length ∧
        s'.tm = restart s.tm ∧ s'.tm ≠ s.tm) := by
  refine ⟨by simp [heroGoTo], ?_⟩
  intro i hne h0 h1
  obtain ⟨s', hs', hcur, htm⟩ := heroGoTo_of_ne s i hne h0 h1
  refine ⟨s', hs', hcur, htm, ?_⟩
  intro heq
  have hf := restart_fresh s.tm
  rw [← htm, heq] at hf
  omega

/-- C6, amended, with 3 slides at `current = 0` and autoplay running: `goTo(3)`. -/
theorem C6_heroGoTo_noop_witness :
    ∃ s', heroGoTo 3 (heroInit 3 (start (timersInit 0))) = some s' ∧
      s'.current = (3 : Int).tmod (heroInit 3 (start (timersInit 0))).slides.length ∧
      s'.tm = restart (heroInit 3 (start (timersInit 0))).tm ∧
      s'.tm ≠ (heroInit 3 (start (timersInit 0))).tm :=
  (C6_heroGoTo_noop (heroInit 3 (start (timersInit 0)))).2 3 (by decide) (by decide)
    (by decide)

/-! ### Autoplay timers -/

/-- The initial timer state is consistent. -/
theorem timersInit_ok (fresh : Nat) : TimersOk (timersInit fresh) :=
  Or.inl ⟨rfl, rfl⟩

/-- After `start` on a consistent state exactly one interval is running. -/
theorem start_ok (t : Timers) (ht : TimersOk t) :
    TimersOk (start t) ∧ (start t).live.length = 1 := by
  obtain ⟨timer, live, fresh⟩ := t
  rcases ht with ⟨h1, h2⟩ | ⟨h, hz, h1, h2⟩
  · simp only at h1 h2
    subst h1 h2
    refine ⟨Or.inr ⟨fresh + 1, by omega, ?_, ?_⟩, ?_⟩ <;>
      simp [start, truthy, setIntervalInto]
  · simp only at h1 h2
    subst h1 h2
    refine ⟨Or.inr ⟨h, hz, ?_, ?_⟩, ?_⟩ <;> simp [start, truthy, hz]

/-- After `stop` on a consistent state no interval is running. -/
theorem stop_ok (t : Timers) (ht : TimersOk t) :
    TimersOk (stop t) ∧ (stop t).live = [] := by
  obtain ⟨timer, live, fresh⟩ := t
  rcases ht with ⟨h1, h2⟩ | ⟨h, hz, h1, h2⟩
  · simp only at h1 h2
    subst h1 h2
    refine ⟨Or.inl ⟨?_, ?_⟩, ?_⟩ <;> simp [stop, truthy]
  · simp only at h1 h2
    subst h1 h2
    refine ⟨Or.inl ⟨?_, ?_⟩, ?_⟩ <;> simp [stop, truthy, clearInterval, hz]

/-- The feature carousel's `startAuto` is the same state transformer as `start`. -/
theorem startAuto_eq_start (t : Timers) : startAuto t = start t := rfl

/-- The feature carousel's `stopAuto` is the same state transformer as `stop`. -/
theorem stopAuto_eq_stop (t : Timers) : stopAuto t = stop t := by
  unfold stopAuto stop
  cases truthy t.timer <;> rfl

/-- Consistency is kept along any sequence of hero timer calls. -/
theorem runHeroTimer_ok (ops : List TimerOp) :
    ∀ t : Timers, TimersOk t → TimersOk (runHeroTimer ops t) := by
  induction ops with
  | nil => intro t ht; exact ht
  | cons op rest ih =>
    intro t ht
    cases op with
    | start => exact ih _ (start_ok t ht).1
    | stop => exact ih _ (stop_ok t ht).1
    | restart => exact ih _ (start_ok _ (stop_ok t ht).1).1

/-- Consistency is kept along any sequence of feature carousel timer calls. -/
theorem runFeatureTimer_ok (ops : List TimerOp) :
    ∀ t : Timers, TimersOk t → TimersOk (runFeatureTimer ops t) := by
  induction ops with
  | nil => intro t ht; exact ht
  | cons op rest ih =>
    intro t ht
    cases op with
    | start =>
      have h := (start_ok t ht).1
      rw [← startAuto_eq_start] at h
      exact ih _ h
    | stop =>
      have h := (stop_ok t ht).1
      rw [← stopAuto_eq_stop] at h
      exact ih _ h
    | restart =>
      have h := (start_ok _ (stop_ok t ht).1).1
      rw [← stopAuto_eq_stop, ← startAuto_eq_start] at h
      exact ih _ h

/-- A consistent timer state has at most one running interval. -/
theorem timersOk_live_le_one (t : Timers) (ht : TimersOk t) : t.live.length ≤ 1 := by
  rcases ht with ⟨_, h2⟩ | ⟨h, _, _, h2⟩ <;> simp [h2]

/-- The operation `start` is idempotent on every timer state. -/
theorem start_idem (t : Timers) : start (start t) = start t := by
  obtain ⟨timer, live, fresh⟩ := t
  cases timer with
  | none => simp [start, truthy, setIntervalInto]
  | some h =>
    by_cases hz : h = 0
    · simp [start, truthy, setIntervalInto, hz]
    · simp [start, truthy, hz]

/-- The operation `stop` is idempotent on every timer state. -/
theorem stop_idem (t : Timers) : stop (stop t) = stop t := by
  obtain ⟨timer, live, fresh⟩ := t
  cases timer with
  | none => simp [stop, truthy]
  | some h =>
    by_cases hz : h = 0
    · simp [stop, truthy, hz]
    · simp [stop, truthy, clearInterval, hz]

/-! ### C7 -/

/-- C7: for the hero slider (`start`/`stop`/`restart`) and the feature carousel
(`startAuto`/`stopAuto`/`resetAuto`), with the state being the stored handle plus the
live interval timers: `start` and `stop` are idempotent (on every state `t`), and in
every state reached from the initial one by any sequence `ops` of start/stop/restart
calls at most one interval timer is live, with exactly one live after `start`. -/
theorem C7_timer_idempotent_single (t : Timers) (fresh : Nat) (ops : List TimerOp) :
    (start (start t) = start t ∧ stop (stop t) = stop t ∧
      (runHeroTimer ops (timersInit fresh)).live.length ≤ 1 ∧
      (start (runHeroTimer ops (timersInit fresh))).live.length = 1 ∧
      (start (start (runHeroTimer ops (timersInit fresh)))).live.length = 1) ∧
    (startAuto (startAuto t) = startAuto t ∧ stopAuto (stopAuto t) = stopAuto t ∧
      (runFeatureTimer ops (timersInit fresh)).live.length ≤ 1 ∧
      (startAuto (runFeatureTimer ops (timersInit fresh))).live.length = 1 ∧
      (startAuto (startAuto (runFeatureTimer ops (timersInit fresh)))).live.length = 1) := by
  have hh := runHeroTimer_ok ops (timersInit fresh) (timersInit_ok fresh)
  have hf := runFeatureTimer_ok ops (timersInit fresh) (timersInit_ok fresh)
  refine ⟨⟨start_idem t, stop_idem t, timersOk_live_le_one _ hh, (start_ok _ hh).2, ?_⟩,
    ⟨?_, ?_, timersOk_live_le_one _ hf, ?_, ?_⟩⟩
  · rw [start_idem]; exact (start_ok _ hh).2
  · rw [startAuto_eq_start, startAuto_eq_start]; exact start_idem t
  · rw [stopAuto_eq_stop, stopAuto_eq_stop]; exact stop_idem t
  · rw [startAuto_eq_start]; exact (start_ok _ hf).2
  · rw [startAuto_eq_start, startAuto_eq_start, start_idem]; exact (start_ok _ hf).2

/-! ### C8 -/

/-- C8 fails on the code: from the page as loaded, opening the full gallery and clicking
its item 0 runs `openLightbox(0); closeFullGallery();`, which leaves the lightbox open
(class `active`, `aria-hidden` `'false'`) with `document.body.style.overflow` reset to
`''`; the clients gallery does the same with
`openClientLightbox(0); closeClientsFull();`. -/
theorem C8_lightbox_open_scroll_free :
    (lightboxOpen (runGallery IMAGES_LENGTH
        [GalleryAction.openFull, GalleryAction.fullItemClick 0] galleryInit) = true ∧
      (runGallery IMAGES_LENGTH
        [GalleryAction.openFull, GalleryAction.fullItemClick 0] galleryInit).bodyOverflow
        = Overflow.unset ∧
      scrollSuspended (runGallery IMAGES_LENGTH
        [GalleryAction.openFull, GalleryAction.fullItemClick 0] galleryInit) = false) ∧
    (lightboxOpen (runClients CLIENT_LOGOS_LENGTH
        [GalleryAction.openFull, GalleryAction.fullItemClick 0] galleryInit) = true ∧
      (runClients CLIENT_LOGOS_LENGTH
        [GalleryAction.openFull, GalleryAction.fullItemClick 0] galleryInit).bodyOverflow
        = Overflow.unset ∧
      scrollSuspended (runClients CLIENT_LOGOS_LENGTH
        [GalleryAction.openFull, GalleryAction.fullItemClick 0] galleryInit) = false) := by
  decide

/-! ### Scroll progress -/

/-- The function `clamp v 0 1` is monotone in `v`. -/
theorem clamp_mono (v w : Rat) (h : v ≤ w) : clamp v 0 1 ≤ clamp w 0 1 := by
  unfold clamp
  exact max_le_max (le_refl 0) (min_le_min (le_refl 1) h)

/-! ### C9 -/

/-- C9: over exact rationals, for every viewport height `vh`, element height `h` and top
offset `top`, `sectionProgress` is in `[0, 1]`; it is 0 when `vh + h = 0`; and whenever
`vh + h > 0` it is 0 at `top = vh` and 1 at `top = -h`. -/
theorem C9_sectionProgress_bounds (vh h top : Rat) :
    (0 ≤ sectionProgress vh h top ∧ sectionProgress vh h top ≤ 1) ∧
    (vh + h = 0 → sectionProgress vh h top = 0) ∧
    (0 < vh + h → sectionProgress vh h vh = 0 ∧ sectionProgress vh h (-h) = 1) := by
  refine ⟨?_, ?_, ?_⟩
  · unfold sectionProgress clamp
    by_cases hd : vh + h = 0
    · simp [hd]
    · simp only [hd, if_false]
      exact ⟨le_max_left _ _, max_le (by norm_num) (min_le_left _ _)⟩
  · intro hd
    simp [sectionProgress, hd]
  · intro hd
    have hne : vh + h ≠ 0 := ne_of_gt hd
    constructor
    · simp [sectionProgress, clamp, hne]
    · have e : (vh - -h) / (vh + h) = 1 := by
        rw [sub_neg_eq_add]
        exact div_self hne
      simp [sectionProgress, clamp, hne, e]

/-- C9 for a viewport of height 800 and an element of height 400. -/
theorem C9_sectionProgress_bounds_witness :
    sectionProgress 800 400 800 = 0 ∧ sectionProgress 800 400 (-400) = 1 :=
  (C9_sectionProgress_bounds 800 400 100).2.2 (by norm_num)

/-! ### C10 -/

/-- C10: over exact rationals, for every `vh ≥ 0`, `h ≥ 0` and top offsets
`top1 ≤ top2`, `sectionProgress vh h top1 ≥ sectionProgress vh h top2`: progress is
non-decreasing as `top` decreases. -/
theorem C10_sectionProgress_antitone (vh h top1 top2 : Rat) (hvh : 0 ≤ vh) (hh : 0 ≤ h)
    (htop : top1 ≤ top2) :
    sectionProgress vh h top1 ≥ sectionProgress vh h top2 := by
  unfold sectionProgress
  by_cases hd : vh + h = 0
  · simp [hd]
  · simp only [hd, if_false]
    have hpos : 0 < vh + h := lt_of_le_of_ne (add_nonneg hvh hh) (Ne.symm hd)
    apply clamp_mono
    exact div_le_div_of_nonneg_right (by linarith) (le_of_lt hpos)

/-- C10 for a viewport of height 800, an element of height 400, tops 100 and 300. -/
theorem C10_sectionProgress_antitone_witness :
    sectionProgress 800 400 100 ≥ sectionProgress 800 400 300 :=
  C10_sectionProgress_antitone 800 400 100 300 (by norm_num) (by norm_num) (by norm_num)


/-! ### Frame-coalesced rendering -/

/-- The scheduler starts consistent. -/
theorem scrollInit_ok (fresh : Nat) : ScrollOk (scrollInit fresh) :=
  Or.inl ⟨rfl, rfl⟩

/-- A signal on a consistent state leaves exactly one callback queued, whose handle is
in `raf`, and calls no `update`. -/
theorem schedule_ok (s : Scroll) (hs : ScrollOk s) :
    (∃ h : Nat, (schedule s).raf = some h ∧ (schedule s).pending = [h]) ∧
      (schedule s).updates = s.updates := by
  obtain ⟨raf, pending, fresh, updates, style⟩ := s
  rcases hs with ⟨h1, h2⟩ | ⟨h, h1, h2⟩
  · simp only at h1 h2
    subst h1 h2
    exact ⟨⟨fresh + 1, rfl, rfl⟩, rfl⟩
  · simp only at h1 h2
    subst h1 h2
    exact ⟨⟨h, rfl, rfl⟩, rfl⟩

/-- A burst of at least one signal on a consistent state leaves exactly one callback
queued and calls no `update`. -/
theorem signals_ok (k : Nat) :
    ∀ s : Scroll, ScrollOk s → 1 ≤ k →
      (∃ h : Nat, (signals k s).raf = some h ∧ (signals k s).pending = [h]) ∧
        (signals k s).updates = s.updates := by
  induction k with
  | zero => intro s _ hk; omega
  | succ k ih =>
    intro s hs _
    have h1 := schedule_ok s hs
    cases k with
    | zero => exact h1
    | succ j =>
      have h2 := ih (schedule s) (Or.inr h1.1) (by omega)
      exact ⟨h2.1, h2.2.trans h1.2⟩

/-- A frame with exactly one queued callback calls `update` exactly once and leaves
`raf` null and the queue empty. -/
theorem frameFires_single (vh height top : Rat) (s : Scroll) (h : Nat)
    (hp : s.pending = [h]) :
    (frameFires vh height top s).updates = s.updates + 1 ∧
      (frameFires vh height top s).raf = none ∧
      (frameFires vh height top s).pending = [] := by
  unfold frameFires
  rw [hp]
  exact ⟨rfl, rfl, rfl⟩

/-- A frame with nothing queued calls no `update`. -/
theorem frameFires_empty (vh height top : Rat) (s : Scroll) (hp : s.pending = []) :
    frameFires vh height top s = s := by
  obtain ⟨raf, pending, fresh, updates, style⟩ := s
  simp only at hp
  subst hp
  rfl

/-- Consistency is kept by every event. -/
theorem scrollStep_ok (s : Scroll) (ev : ScrollEvent) (hs : ScrollOk s) :
    ScrollOk (scrollStep s ev) := by
  cases ev with
  | signal => exact Or.inr (schedule_ok s hs).1
  | frame vh height top =>
    rcases hs with ⟨h1, h2⟩ | ⟨h, _, h2⟩
    · have e := frameFires_empty vh height top s h2
      exact Or.inl ⟨by simp only [scrollStep]; rw [e]; exact h1,
        by simp only [scrollStep]; rw [e]; exact h2⟩
    · have e := frameFires_single vh height top s h h2
      exact Or.inl ⟨e.2.1, e.2.2⟩

/-- Consistency is kept along any sequence of events. -/
theorem runScroll_ok (evs : List ScrollEvent) :
    ∀ s : Scroll, ScrollOk s → ScrollOk (runScroll evs s) := by
  induction evs with
  | nil => intro s hs; exact hs
  | cons ev rest ih =>
    intro s hs
    exact ih (scrollStep s ev) (scrollStep_ok s ev hs)

/-- A consistent scheduler has at most one callback queued. -/
theorem scrollOk_pending_le_one (s : Scroll) (hs : ScrollOk s) : s.pending.length ≤ 1 := by
  rcases hs with ⟨_, h2⟩ | ⟨h, _, h2⟩ <;> simp [h2]

/-! ### C11 -/

/-- C11: for the scroll transform with the events `signal` (`schedule`) and `frame`
(`update` runs for what is queued), in every state `runScroll evs (scrollInit fresh)`
reachable from the initial one at most one frame-scheduled render is pending; a burst
of `k ≥ 1` signals from such a state leaves exactly one pending and the next frame calls
`update` exactly once; `update` sets `raf` to null, so after that frame nothing is
pending and the next signal schedules again. -/
theorem C11_signals_coalesce (fresh : Nat) (evs : List ScrollEvent) (k : Nat)
    (hk : 1 ≤ k) (vh height top : Rat) (t : Scroll) :
    (runScroll evs (scrollInit fresh)).pending.length ≤ 1 ∧
    (signals k (runScroll evs (scrollInit fresh))).pending.length = 1 ∧
    (signals k (runScroll evs (scrollInit fresh))).updates
      = (runScroll evs (scrollInit fresh)).updates ∧
    (frameFires vh height top (signals k (runScroll evs (scrollInit fresh)))).updates
      = (runScroll evs (scrollInit fresh)).updates + 1 ∧
    (update vh height top t).raf = none ∧
    (update vh height top t).updates = t.updates + 1 ∧
    (frameFires vh height top (signals k (runScroll evs (scrollInit fresh)))).raf = none ∧
    (frameFires vh height top (signals k (runScroll evs (scrollInit fresh)))).pending = [] ∧
    (schedule (frameFires vh height top
      (signals k (runScroll evs (scrollInit fresh))))).pending.length = 1 := by
  have hs := runScroll_ok evs (scrollInit fresh) (scrollInit_ok fresh)
  obtain ⟨⟨h, hraf, hpend⟩, hupd⟩ := signals_ok k _ hs hk
  have hf := frameFires_single vh height top _ h hpend
  have hok : ScrollOk (frameFires vh height top
      (signals k (runScroll evs (scrollInit fresh)))) := Or.inl ⟨hf.2.1, hf.2.2⟩
  obtain ⟨⟨h2, _, hpend2⟩, _⟩ := schedule_ok _ hok
  refine ⟨scrollOk_pending_le_one _ hs, by rw [hpend]; rfl, hupd, ?_, rfl, rfl, hf.2.1,
    hf.2.2, by rw [hpend2]; rfl⟩
  rw [hf.1, hupd]

/-- C11 after the initial `schedule()` and one frame: a burst of 5 signals and the next
frame make exactly one more call of `update`. -/
theorem C11_signals_coalesce_witness :
    (frameFires 800 400 100 (signals 5 (runScroll
        [ScrollEvent.signal, ScrollEvent.frame 800 400 300] (scrollInit 0)))).updates
      = (runScroll [ScrollEvent.signal, ScrollEvent.frame 800 400 300]
          (scrollInit 0)).updates + 1 :=
  (C11_signals_coalesce 0 [ScrollEvent.signal, ScrollEvent.frame 800 400 300] 5
    (by decide) 800 400 100 (scrollInit 0)).2.2.2.1

/-! ### Easing and interpolation -/

/-- The easing curve is non-decreasing on `[0, 1]`. -/
theorem easeInOutQuad_mono (a b : Rat) (ha : 0 ≤ a) (hab : a ≤ b) (hb : b ≤ 1) :
    easeInOutQuad a ≤ easeInOutQuad b := by
  unfold easeInOutQuad
  split_ifs with h1 h2 h2
  · nlinarith [mul_nonneg ha ha, mul_nonneg (sub_nonneg.2 hab) (add_nonneg ha (ha.trans hab))]
  · nlinarith [mul_nonneg ha ha, mul_nonneg (sub_nonneg.2 (le_of_lt h1)) ha,
      mul_nonneg (sub_nonneg.2 (not_lt.1 h2)) (sub_nonneg.2 hb)]
  · linarith
  · nlinarith [mul_nonneg (sub_nonneg.2 hab) (sub_nonneg.2 hb),
      mul_nonneg (sub_nonneg.2 hab) (sub_nonneg.2 (hab.trans hb))]

/-- The easing curve takes the value 0 at 0 and 1 at 1. -/
theorem easeInOutQuad_ends : easeInOutQuad 0 = 0 ∧ easeInOutQuad 1 = 1 := by
  constructor <;> norm_num [easeInOutQuad]

/-- The easing curve maps `[0, 1]` into `[0, 1]`. -/
theorem easeInOutQuad_range (t : Rat) (h0 : 0 ≤ t) (h1 : t ≤ 1) :
    0 ≤ easeInOutQuad t ∧ easeInOutQuad t ≤ 1 := by
  have a := easeInOutQuad_mono 0 t (le_refl 0) h0 h1
  have b := easeInOutQuad_mono t 1 h0 h1 (le_refl 1)
  rw [easeInOutQuad_ends.1] at a
  rw [easeInOutQuad_ends.2] at b
  exact ⟨a, b⟩

/-- For `e` in `[0, 1]` and `a ≤ b`, `lerp a b e` is in `[a, b]`. -/
theorem lerp_between (a b e : Rat) (hab : a ≤ b) (h0 : 0 ≤ e) (h1 : e ≤ 1) :
    a ≤ lerp a b e ∧ lerp a b e ≤ b := by
  unfold lerp
  constructor
  · nlinarith [mul_nonneg (sub_nonneg.2 hab) h0]
  · nlinarith [mul_nonneg (sub_nonneg.2 hab) (sub_nonneg.2 h1)]

/-- For `e` in `[0, 1]` and `b ≤ a`, `lerp a b e` is in `[b, a]`. -/
theorem lerp_between_rev (a b e : Rat) (hba : b ≤ a) (h0 : 0 ≤ e) (h1 : e ≤ 1) :
    b ≤ lerp a b e ∧ lerp a b e ≤ a := by
  unfold lerp
  constructor
  · nlinarith [mul_nonneg (sub_nonneg.2 hba) (sub_nonneg.2 h1)]
  · nlinarith [mul_nonneg (sub_nonneg.2 hba) h0]

/-! ### C12 -/

/-- C12: over exact rationals, `easeInOutQuad` has value 0 at 0 and 1 at 1, its two
branches agree with value 1/2 at `t = 1/2`, it is non-decreasing on `[0, 1]` and maps
`[0, 1]` into `[0, 1]`; so for every progress `p` in `[0, 1]` each parameter computed by
`update` lies between its endpoints: `scale` in `[0.55, 1.18]`, `rotY` in `[-40, 40]`,
`rotX` in `[-2, 6]`, `ty` in `[-20, 40]`, `opacity` in `[0.95, 1]`. -/
theorem C12_ease_and_params (a b p : Rat) :
    easeInOutQuad 0 = 0 ∧ easeInOutQuad 1 = 1 ∧
    (2 * (1 / 2 : Rat) * (1 / 2) = 1 / 2 ∧ easeInOutQuad (1 / 2) = 1 / 2) ∧
    (0 ≤ a → a ≤ b → b ≤ 1 → easeInOutQuad a ≤ easeInOutQuad b) ∧
    (0 ≤ p → p ≤ 1 →
      (0 ≤ easeInOutQuad p ∧ easeInOutQuad p ≤ 1) ∧
      (55 / 100 ≤ (updateParams p).scale ∧ (updateParams p).scale ≤ 118 / 100) ∧
      (-40 ≤ (updateParams p).rotY ∧ (updateParams p).rotY ≤ 40) ∧
      (-2 ≤ (updateParams p).rotX ∧ (updateParams p).rotX ≤ 6) ∧
      (-20 ≤ (updateParams p).ty ∧ (updateParams p).ty ≤ 40) ∧
      (95 / 100 ≤ (updateParams p).opacity ∧ (updateParams p).opacity ≤ 1)) := by
  refine ⟨easeInOutQuad_ends.1, easeInOutQuad_ends.2,
    ⟨by norm_num, by norm_num [easeInOutQuad]⟩, easeInOutQuad_mono a b, ?_⟩
  intro h0 h1
  have he := easeInOutQuad_range p h0 h1
  refine ⟨he, ?_, ?_, ?_, ?_, ?_⟩
  · exact lerp_between SCALE_MIN SCALE_MAX _ (by norm_num [SCALE_MIN, SCALE_MAX]) he.1 he.2
  · exact lerp_between ROT_MIN ROT_MAX _ (by norm_num [ROT_MIN, ROT_MAX]) he.1 he.2
  · exact lerp_between_rev 6 (-2) _ (by norm_num) he.1 he.2
  · exact lerp_between_rev TRANSLATE_Y_MIN TRANSLATE_Y_MAX _
      (by norm_num [TRANSLATE_Y_MIN, TRANSLATE_Y_MAX]) he.1 he.2
  · exact lerp_between OPACITY_MIN 1 _ (by norm_num [OPACITY_MIN]) he.1 he.2

/-- C12 at `a = 1/4 ≤ b = 3/4` (one point on each branch) and progress `p = 1/4`. -/
theorem C12_ease_and_params_witness :
    easeInOutQuad (1 / 4) ≤ easeInOutQuad (3 / 4) ∧
    ((0 ≤ easeInOutQuad (1 / 4) ∧ easeInOutQuad (1 / 4) ≤ 1) ∧
      (55 / 100 ≤ (updateParams (1 / 4)).scale ∧ (updateParams (1 / 4)).scale ≤ 118 / 100) ∧
      (-40 ≤ (updateParams (1 / 4)).rotY ∧ (updateParams (1 / 4)).rotY ≤ 40) ∧
      (-2 ≤ (updateParams (1 / 4)).rotX ∧ (updateParams (1 / 4)).rotX ≤ 6) ∧
      (-20 ≤ (updateParams (1 / 4)).ty ∧ (updateParams (1 / 4)).ty ≤ 40) ∧
      (95 / 100 ≤ (updateParams (1 / 4)).opacity ∧ (updateParams (1 / 4)).opacity ≤ 1)) :=
  ⟨(C12_ease_and_params (1 / 4) (3 / 4) (1 / 4)).2.2.2.1 (by norm_num) (by norm_num)
      (by norm_num),
    (C12_ease_and_params (1 / 4) (3 / 4) (1 / 4)).2.2.2.2 (by norm_num) (by norm_num)⟩

end MainJs
